import Mathlib

/-!
Verification of the slide-deck MCP server (markdown deck builder, build/export
tool handlers, and the PDF export wrapper).

The JavaScript sources are shallowly embedded: strings are Lean `String`s
(reasoned about through their `.data` character lists), the mutable module
state (`presentationName`) and the filesystem are threaded explicitly through
a `ServerState`, fallible filesystem calls are modelled with `Except`/`Option`,
and external-process invocations are recorded as explicit effect traces.
-/

/-! ## String basics -/

/-- Character-level occurrence counter: the number of positions of `s` at which
the pattern `p` occurs (for patterns without self-overlap, such as all patterns
used below, this is exactly what the JavaScript `str.match(/pat/g)` count and
`String.prototype.includes` observe). -/
def countOccs (p : List Char) : List Char → Nat
  | [] => 0
  | c :: t => (if p <+: c :: t then 1 else 0) + countOccs p t

def layoutPat : List Char := "---\nlayout:".data

def dashPat : List Char := "---".data

/-- A string is "clean" when it does not contain the frontmatter delimiter
`---` anywhere (the spec's documented corruption caveat concerns exactly an
embedded frontmatter delimiter). -/
def cleanStr (s : String) : Prop := countOccs dashPat s.data = 0

def cleanOpt (o : Option String) : Prop := cleanStr (o.getD "")

/-- Newline-headed (or empty) strings: the shape of everything that can follow
a slide block in the built document. -/
def nlHead (l : List Char) : Prop := l = [] ∨ l.head? = some '\n'

structure Slide where
  layout : Option String
  title : Option String
  content : Option String
  code : Option String
  codeLanguage : Option String
deriving Repr, DecidableEq

structure BuildInput where
  name : String
  title : String
  slides : List Slide
  theme : Option String
  author : Option String
deriving Repr, DecidableEq

/-- JavaScript string truthiness: a string is truthy iff it is non-empty. -/
def strTruthy (s : String) : Bool := !s.data.isEmpty

/-- Models the JavaScript test `s && s.trim().length > 0`: it holds exactly
when `s` contains a non-whitespace character (an empty or all-whitespace
string trims to length 0, and the empty string is falsy anyway). -/
def hasNonWS (s : String) : Bool := s.data.any fun c => !c.isWhitespace

/-- The layout actually emitted for a slide (index.js lines 287 and 298):
`slide.layout && slide.layout.trim().length > 0 ? slide.layout : dflt`,
with `dflt` being `"cover"` for the first slide and `"default"` after. -/
def resolveLayout (layout : Option String) (dflt : String) : String :=
  match layout with
  | some l => if hasNonWS l then l else dflt
  | none => dflt

/-- The optional `theme:` line of the first block (index.js lines 289-291):
emitted iff `typeof input.theme === "string" && input.theme.trim().length > 0`. -/
def themeLine (inp : BuildInput) : String :=
  match inp.theme with
  | some t => if hasNonWS t then "theme: " ++ t ++ "\n" else ""
  | none => ""

/-- The optional `author:` line of the first block (index.js line 293):
emitted iff `input.author` is truthy. -/
def authorLine (inp : BuildInput) : String :=
  match inp.author with
  | some a => if strTruthy a then "author: \"" ++ a ++ "\"\n" else ""
  | none => ""

/-- Heading emitted after a block when `slide.title` is truthy
(index.js lines 302-304). -/
def titlePart (s : Slide) : String :=
  match s.title with
  | some t => if strTruthy t then "\n# " ++ t ++ "\n" else ""
  | none => ""

/-- Raw body emitted when `slide.content` is truthy (index.js lines 306-308). -/
def contentPart (s : Slide) : String :=
  match s.content with
  | some c => if strTruthy c then "\n" ++ c ++ "\n" else ""
  | none => ""

/-- Fenced code block emitted when `slide.code && slide.codeLanguage` is
truthy, i.e. both fields are present AND non-empty (index.js lines 310-312). -/
def codePart (s : Slide) : String :=
  match s.code, s.codeLanguage with
  | some c, some l =>
    if strTruthy c && strTruthy l then "\n```" ++ l ++ "\n" ++ c ++ "\n```\n" else ""
  | _, _ => ""

/-- First slide's metadata block (index.js lines 285-296). -/
def firstSlideHeader (inp : BuildInput) (s : Slide) : String :=
  "---\n" ++ ("layout: " ++ resolveLayout s.layout "cover" ++ "\n")
    ++ themeLine inp ++ ("title: \"" ++ inp.title ++ "\"\n") ++ authorLine inp
    ++ "---\n"

/-- Everything emitted for the slide at position `index` in the `forEach`
body (index.js lines 283-313). -/
def slidePiece (inp : BuildInput) (s : Slide) (index : Nat) : String :=
  (if index = 0 then firstSlideHeader inp s
   else "\n---\nlayout: " ++ resolveLayout s.layout "default" ++ "\n---\n")
    ++ titlePart s ++ contentPart s ++ codePart s

/-- The complete markdown accumulation of `build_complete_presentation`
(`let markdown = ""` plus the indexed `forEach` with `markdown +=`). -/
def buildMarkdown (inp : BuildInput) : String :=
  inp.slides.enum.foldl (fun md p => md ++ slidePiece inp p.2 p.1) ""

/-! ### Canonical per-slide decomposition of the built document -/

/-- The tail of any slide's output: heading, body, code block, in that order. -/
def bodyStr (s : Slide) : String := titlePart s ++ contentPart s ++ codePart s

/-- The complete output chunk of a slide at index `> 0`. -/
def laterChunkStr (s : Slide) : String :=
  "\n---\nlayout: " ++ resolveLayout s.layout "default" ++ "\n---\n" ++ bodyStr s

/-- The complete output chunk of the slide at index `0`. -/
def firstChunkStr (inp : BuildInput) (s : Slide) : String :=
  firstSlideHeader inp s ++ bodyStr s

/-- Concatenation of the chunks of all slides after the first. -/
def restDocStr : List Slide → String
  | [] => ""
  | s :: r => laterChunkStr s ++ restDocStr r

/-- Boolean string-prefix test (at the character level). -/
def strPrefixB (p s : String) : Bool := p.data.isPrefixOf s.data

/-- All optional fields of a slide are free of the frontmatter delimiter. -/
def cleanSlideP (s : Slide) : Prop :=
  cleanOpt s.layout ∧ cleanOpt s.title ∧ cleanOpt s.content ∧ cleanOpt s.code ∧
    cleanOpt s.codeLanguage

/-- All interpolated fields of a build request are free of the frontmatter
delimiter. -/
def cleanInputP (inp : BuildInput) : Prop :=
  cleanStr inp.title ∧ cleanOpt inp.theme ∧ cleanOpt inp.author ∧
    ∀ s ∈ inp.slides, cleanSlideP s

instance (s : String) : Decidable (cleanStr s) := by
  unfold cleanStr; infer_instance

instance (o : Option String) : Decidable (cleanOpt o) := by
  unfold cleanOpt; infer_instance

instance (s : Slide) : Decidable (cleanSlideP s) := by
  unfold cleanSlideP; infer_instance

instance (inp : BuildInput) : Decidable (cleanInputP inp) := by
  unfold cleanInputP; infer_instance

/-- A slide whose `layout` is present but empty: the claim's reading
("declares the slide's explicit layout") predicts `layout: ` while the code
falls back to `cover`. -/
def c1CexInput : BuildInput :=
  { name := "deck", title := "T",
    slides := [{ layout := some "", title := none, content := none,
                 code := none, codeLanguage := none }],
    theme := none, author := none }

def c1WitS0 : Slide :=
  { layout := some "cover", title := some "Hello", content := none,
    code := none, codeLanguage := none }

def c1WitRest : List Slide :=
  [{ layout := none, title := some "World", content := some "- a\n- b",
     code := none, codeLanguage := none }]

def c1WitInput : BuildInput :=
  { name := "t1", title := "Demo", slides := c1WitS0 :: c1WitRest,
    theme := none, author := none }

/-- A slide whose `content` embeds the slide-separator pattern. -/
def c2CexInput : BuildInput :=
  { name := "deck", title := "T",
    slides := [{ layout := none, title := none,
                 content := some "x\n---\nlayout: y", code := none,
                 codeLanguage := none }],
    theme := none, author := none }

def c2WitInput : BuildInput :=
  { name := "t1", title := "Demo", slides := c1WitS0 :: c1WitRest,
    theme := some "seriph", author := some "MCP Tester" }

/-- A slide whose `code` is present but empty while `codeLanguage` is a
real language tag: both fields are present, yet no fence is emitted. -/
def c3CexInput : BuildInput :=
  { name := "deck", title := "T",
    slides := [{ layout := none, title := none, content := none,
                 code := some "", codeLanguage := some "js" }],
    theme := none, author := none }

def c3WitS0 : Slide :=
  { layout := some "two-cols", title := some "Code", content := some "notes",
    code := some "console.log(1);", codeLanguage := some "js" }

def c3WitInput : BuildInput :=
  { name := "t2", title := "Demo", slides := [c3WitS0], theme := none,
    author := none }


/-! ## Tool surface: server state, build handler, export handler

The module-level mutable `presentationName` (index.js line 28) and the
filesystem become explicit state; `writeFileSync`/`mkdirSync` failures are
modelled by an injectable error (`BuildEnv.writeError`), and the handler's
lack of a try/catch is reflected in its `Except` result type: a filesystem
error propagates as `.error` instead of a structured payload. -/

/-- POSIX-style `path.join` for the paths this server constructs. -/
def joinPath (dir name : String) : String := dir ++ "/" ++ name

/-- Lower-casing, modelling JavaScript `String.prototype.toLowerCase` for
the ASCII strings involved. -/
def lowerStr (s : String) : String := String.mk (s.data.map Char.toLower)

/-- Substring test, modelling JavaScript `String.prototype.includes`. -/
def strContains (s pat : String) : Bool := countOccs pat.data s.data != 0

structure ServerState where
  fs : List (String × String)
  presentationName : String
deriving Repr, DecidableEq

structure BuildEnv where
  slidevDirEnv : Option String
  userDataDir : String
  writeError : Option String
deriving Repr, DecidableEq

/-- Models `getUserDataDir()` (index.js lines 212-222): the per-OS switch is
abstracted into the environment's `userDataDir`. -/
def getUserDataDir (env : BuildEnv) : String := env.userDataDir

/-- Models `getDefaultSlidevDir()` (index.js lines 224-226). -/
def getDefaultSlidevDir (env : BuildEnv) : String :=
  joinPath (joinPath (getUserDataDir env) "precursor") "slides"

/-- Directory resolution shared by both handlers (index.js lines 316-319 and
412-415): `process.env.SLIDEV_DIR && process.env.SLIDEV_DIR.length > 0`. -/
def presentationsDir (env : BuildEnv) : String :=
  match env.slidevDirEnv with
  | some d => if 0 < d.length then d else getDefaultSlidevDir env
  | none => getDefaultSlidevDir env

def fsSet (fs : List (String × String)) (p v : String) : List (String × String) :=
  (p, v) :: fs

def fsGet (fs : List (String × String)) (p : String) : Option String :=
  (fs.find? fun e => e.1 == p).map fun e => e.2

/-- Models `existsSync`. -/
def fsExistsB (fs : List (String × String)) (p : String) : Bool :=
  (fs.find? fun e => e.1 == p).isSome

structure BuildResult where
  message : String
  slideCount : Nat
  filePath : String
  success : Bool
deriving Repr, DecidableEq

/-- The `build_complete_presentation` handler (index.js lines 263-341).
The module variable `presentationName` is assigned from `input.name` BEFORE
the empty-slides guard runs.  There is no try/catch: a failing
`writeFileSync` (or `mkdirSync`) surfaces as an uncaught exception,
modelled by the `.error` branch. -/
def buildHandler (env : BuildEnv) (st : ServerState) (inp : BuildInput) :
    Except String (ServerState × BuildResult) :=
  let st1 : ServerState := { st with presentationName := inp.name }
  if inp.slides.isEmpty then
    .ok (st1,
      { message := "No slides provided. 'slides' array must contain at least one slide.",
        slideCount := 0, filePath := "", success := false })
  else
    let markdown := buildMarkdown inp
    let dir := presentationsDir env
    match env.writeError with
    | some e => .error e
    | none =>
      let filePath := joinPath dir (st1.presentationName ++ ".md")
      .ok ({ st1 with fs := fsSet st1.fs filePath markdown },
        { message := "Complete presentation '" ++ inp.title ++ "' with "
            ++ toString inp.slides.length ++ " slides created and saved successfully!",
          slideCount := inp.slides.length, filePath := filePath, success := true })

structure ExportInput where
  inputPath : Option String
  name : Option String
  outputPath : Option String
  withClicks : Option Bool
  range : Option String
  dark : Option Bool
deriving Repr, DecidableEq

structure ExportPayload where
  message : String
  pdfPath : String
  slideCount : Nat
  success : Bool
deriving Repr, DecidableEq

structure ExpOpts where
  withClicks : Bool
  range : Option String
  dark : Bool
deriving Repr, DecidableEq

structure WrapperResult where
  success : Bool
  pdfPath : String
  message : String
deriving Repr, DecidableEq

/-- Name-based input resolution of `export_to_pdf` (index.js lines 405-421):
`const name = input.name || presentationName`. -/
def resolveByName (env : BuildEnv) (st : ServerState) (inp : ExportInput) :
    Except String String :=
  let name := match inp.name with
    | some n => if strTruthy n then n else st.presentationName
    | none => st.presentationName
  if strTruthy name then
    let candidate := joinPath (presentationsDir env) (name ++ ".md")
    if fsExistsB st.fs candidate then .ok candidate
    else .error ("Presentation file not found: " ++ candidate)
  else
    .error "No inputPath provided and no presentation name available. Provide 'inputPath' or 'name' (after building a presentation)."

/-- Input resolution of `export_to_pdf` (index.js lines 397-421). -/
def resolveMdPath (env : BuildEnv) (st : ServerState) (inp : ExportInput) :
    Except String String :=
  match inp.inputPath with
  | some p =>
    if hasNonWS p then
      if fsExistsB st.fs p then .ok p
      else .error ("Input markdown not found: " ++ p)
    else resolveByName env st inp
  | none => resolveByName env st inp

def basenameStr (p : String) : String :=
  String.mk (p.data.reverse.takeWhile (fun c => c != '/')).reverse

def dirnameStr (p : String) : String :=
  match (p.data.reverse.dropWhile (fun c => c != '/')).reverse with
  | [] => "."
  | l => if l.dropLast.isEmpty then "/" else String.mk l.dropLast

/-- Models `basename.replace` with the case-insensitive regex dropping a
final `.md`. -/
def stripMdExt (s : String) : String :=
  let d := s.data
  if 3 ≤ d.length ∧ (d.drop (d.length - 3)).map Char.toLower = ['.', 'm', 'd'] then
    String.mk (d.take (d.length - 3))
  else s

/-- Output path defaulting of `export_to_pdf` (index.js lines 424-438). -/
def resolveOutputPath (mdPath : String) (inp : ExportInput) : String :=
  match inp.outputPath with
  | some o =>
    if hasNonWS o then o
    else joinPath (dirnameStr mdPath) (stripMdExt (basenameStr mdPath) ++ ".pdf")
  | none => joinPath (dirnameStr mdPath) (stripMdExt (basenameStr mdPath) ++ ".pdf")

/-- Option normalization of `export_to_pdf` (index.js lines 443-450). -/
def exportOptions (inp : ExportInput) : ExpOpts :=
  { withClicks := inp.withClicks == some true,
    range := match inp.range with
      | some r => if hasNonWS r then some r else none
      | none => none,
    dark := inp.dark == some true }

/-- The export handler's interaction with the export wrapper, recorded as an
effect trace. -/
inductive HEffect where
  | callWrapper (mdPath outputPath : String) (opts : ExpOpts)
deriving Repr, DecidableEq

/-- The export wrapper as the handler sees it: a total function returning a
structured result (the wrapper has its own catch-all). -/
structure ExportEnv where
  wrapper : String → String → ExpOpts → WrapperResult

/-- The try-block body of the `export_to_pdf` handler (index.js lines
396-475): resolution, output defaulting, wrapper invocation, slide count by
regex over the re-read markdown (`match(...)` count, with empty falling back
to 1). -/
def exportTryBody (benv : BuildEnv) (eenv : ExportEnv) (st : ServerState)
    (inp : ExportInput) : Except String ExportPayload × List HEffect :=
  match resolveMdPath benv st inp with
  | .error e => (.error e, [])
  | .ok mdPath =>
    let outputPath := resolveOutputPath mdPath inp
    let opts := exportOptions inp
    let result := eenv.wrapper mdPath outputPath opts
    if result.success = false then
      (.error result.message, [HEffect.callWrapper mdPath outputPath opts])
    else
      let pdfPath := if strTruthy result.pdfPath then result.pdfPath else outputPath
      match fsGet st.fs mdPath with
      | none => (.error ("ENOENT: no such file or directory, open '" ++ mdPath ++ "'"),
                 [HEffect.callWrapper mdPath outputPath opts])
      | some markdown =>
        let m := countOccs layoutPat markdown.data
        let slideCount := if m = 0 then 1 else m
        (.ok { message := "PDF exported successfully! File saved at: " ++ pdfPath,
               pdfPath := pdfPath, slideCount := slideCount, success := true },
         [HEffect.callWrapper mdPath outputPath opts])

/-- The catch-block classification of `export_to_pdf` (index.js lines
476-517): substring matching on the error message. -/
def classifyMessage (message : String) : ExportPayload :=
  if strContains (lowerStr message) "playwright" then
    { message := "PDF export failed: Playwright dependency issue. Run: npm install -D playwright-chromium",
      pdfPath := "", slideCount := 0, success := false }
  else if strContains message "ENOENT" || strContains message "command not found" then
    { message := "PDF export failed: Slidev CLI not found. Run: npm install -g @slidev/cli (or add it to your project devDependencies).",
      pdfPath := "", slideCount := 0, success := false }
  else
    { message := "PDF export failed: " ++ message, pdfPath := "", slideCount := 0,
      success := false }

/-- The complete `export_to_pdf` handler: try body plus catch classification.
It is a total function: every failure becomes a structured payload. -/
def exportHandler (benv : BuildEnv) (eenv : ExportEnv) (st : ServerState)
    (inp : ExportInput) : ExportPayload × List HEffect :=
  match exportTryBody benv eenv st inp with
  | (.ok p, t) => (p, t)
  | (.error e, t) => (classifyMessage e, t)

def emptyState : ServerState := { fs := [], presentationName := "" }

def benv0 : BuildEnv :=
  { slidevDirEnv := some "/slides", userDataDir := "/home/user/.local/share",
    writeError := none }

/-- An environment in which `writeFileSync` throws (e.g. a permissions
error on the presentations directory). -/
def benvFail : BuildEnv :=
  { slidevDirEnv := some "/slides", userDataDir := "/home/user/.local/share",
    writeError := some "EACCES: permission denied, open '/slides/deck.md'" }

def c4CexInput : BuildInput :=
  { name := "deck", title := "T",
    slides := [{ layout := none, title := some "Hi", content := none,
                 code := none, codeLanguage := none }],
    theme := none, author := none }

def eenv0 : ExportEnv :=
  { wrapper := fun _ _ _ =>
      { success := false, pdfPath := "", message := "boom" } }

def exportInputDefault : ExportInput :=
  { inputPath := none, name := none, outputPath := none, withClicks := none,
    range := none, dark := none }

def c5WitInput : BuildInput :=
  { name := "empty-deck", title := "Nothing", slides := [], theme := none,
    author := none }

def c10WitInput : BuildInput :=
  { name := "ghost", title := "Rejected", slides := [], theme := none,
    author := none }


/-! ## Export wrapper (export-wrapper.js)

The wrapper shells out to npm / npx / node; every external-process
invocation is recorded in a `WEffect` trace, and the outcomes of the
external world (file existence, package resolvability, install and export
command results, file contents) are supplied by a `WEnv`. -/

def strContainsChar (s : String) (c : Char) : Bool := s.data.contains c

def strStartsWithStr (s pre : String) : Bool := pre.data.isPrefixOf s.data

/-- Theme package name derivation (export-wrapper.js lines 202-206). -/
def derivePkgName (themeName : String) : String :=
  if strContainsChar themeName '/' || strStartsWithStr themeName "@" then themeName
  else if strStartsWithStr themeName "theme-" then "@slidev/" ++ themeName
  else "@slidev/theme-" ++ themeName

/-- Models `inputFile.replace` with the anchored regex stripping one leading
`presentations/` (export-wrapper.js lines 37-38). -/
def stripPresentationsPrefix (s : String) : String :=
  if strPrefixB "presentations/" s then String.mk (s.data.drop 14) else s

/-- Models `path.resolve(base, p)` for an absolute, already-normalized
`base`: an absolute `p` wins, otherwise it is joined onto `base`. -/
def resolvePath (base p : String) : String :=
  if strPrefixB "/" p then p else base ++ "/" ++ p

structure WEnv where
  cwd : String
  wrapperRoot : String
  slidevDirEnv : Option String
  defaultCanonicalDir : String
  fsExists : String → Bool
  npmInitOk : Bool
  cliResolvable : Bool
  themeDefaultResolvable : Bool
  playwrightResolvable : Bool
  installOk : String → Bool
  stageCopyOk : Bool
  stageErrMsg : String
  readFile : String → Option String
  frontmatterTheme : String → Option String
  themeResolvable : String → Bool
  execOk : Nat → Bool
  execErrMsg : Nat → String
  copyOk : String → String → Bool

/-- External-process invocations and filesystem mutations of the wrapper. -/
inductive WEffect where
  | npmInit
  | checkResolve (pkg : String)
  | installPkg (pkg : String)
  | playwrightInstallChromium
  | execExport (cmd : String)
  | stageCopy (src dst : String)
  | chdir (dir : String)
  | copyOut (src dst : String)
deriving Repr, DecidableEq

/-- The candidate input locations searched by the wrapper
(export-wrapper.js lines 33-39); `resolve(inputFile)` resolves against the
original working directory, like the first entry. -/
def possiblePaths (env : WEnv) (inputFile : String) : List String :=
  [ resolvePath env.cwd inputFile,
    resolvePath env.wrapperRoot inputFile,
    resolvePath env.cwd inputFile,
    resolvePath (resolvePath env.cwd "presentations") (stripPresentationsPrefix inputFile),
    resolvePath (resolvePath env.wrapperRoot "presentations") (stripPresentationsPrefix inputFile) ]

/-- Canonical renderer project root (export-wrapper.js lines 56-69): the
per-OS default is abstracted into `defaultCanonicalDir`. -/
def canonicalRootW (env : WEnv) : String :=
  match env.slidevDirEnv with
  | some d => if 0 < d.length then resolvePath env.cwd d else env.defaultCanonicalDir
  | none => env.defaultCanonicalDir

/-! ### SHA-1 (Node `crypto.createHash('sha1')`), byte-for-byte -/

def utf8Char (c : Char) : List Nat :=
  let n := c.toNat
  if n < 128 then [n]
  else if n < 2048 then [192 + n / 64, 128 + n % 64]
  else if n < 65536 then [224 + n / 4096, 128 + (n / 64) % 64, 128 + n % 64]
  else [240 + n / 262144, 128 + (n / 4096) % 64, 128 + (n / 64) % 64, 128 + n % 64]

/-- UTF-8 encoding, as `hash.update(string)` performs. -/
def utf8Bytes (s : String) : List Nat :=
  s.data.foldr (fun c acc => utf8Char c ++ acc) []

def rotl32 (k n : Nat) : Nat := ((n <<< k) % 4294967296) ||| (n >>> (32 - k))

def be8 (n : Nat) : List Nat :=
  (List.range 8).map fun i => (n >>> (8 * (7 - i))) % 256

def sha1Pad (msg : List Nat) : List Nat :=
  msg ++ [128] ++ List.replicate ((119 - msg.length % 64) % 64) 0 ++ be8 (msg.length * 8)

def wordAt (b : List Nat) (i : Nat) : Nat :=
  b.getD (4 * i) 0 * 16777216 + b.getD (4 * i + 1) 0 * 65536
    + b.getD (4 * i + 2) 0 * 256 + b.getD (4 * i + 3) 0

def sha1W (block : List Nat) : List Nat :=
  (List.range 80).foldl
    (fun ws i =>
      ws ++ [if i < 16 then wordAt block i
             else rotl32 1 ((ws.getD (i - 3) 0) ^^^ (ws.getD (i - 8) 0)
               ^^^ (ws.getD (i - 14) 0) ^^^ (ws.getD (i - 16) 0))])
    []

def sha1F (i b c d : Nat) : Nat :=
  if i < 20 then (b &&& c) ||| ((b ^^^ 4294967295) &&& d)
  else if i < 40 then b ^^^ c ^^^ d
  else if i < 60 then (b &&& c) ||| (b &&& d) ||| (c &&& d)
  else b ^^^ c ^^^ d

def sha1K (i : Nat) : Nat :=
  if i < 20 then 1518500249 else if i < 40 then 1859775393
  else if i < 60 then 2400959708 else 3395469782

def sha1Block (h : Nat × Nat × Nat × Nat × Nat) (block : List Nat) :
    Nat × Nat × Nat × Nat × Nat :=
  let ws := sha1W block
  let s := (List.range 80).foldl
    (fun st i =>
      match st with
      | (a, b, c, d, e) =>
        ((rotl32 5 a + sha1F i b c d + e + sha1K i + ws.getD i 0) % 4294967296,
         a, rotl32 30 b, c, d))
    h
  match h, s with
  | (h0, h1, h2, h3, h4), (a, b, c, d, e) =>
    ((h0 + a) % 4294967296, (h1 + b) % 4294967296, (h2 + c) % 4294967296,
     (h3 + d) % 4294967296, (h4 + e) % 4294967296)

def sha1Nums (msg : List Nat) : Nat × Nat × Nat × Nat × Nat :=
  let padded := sha1Pad msg
  (List.range (padded.length / 64)).foldl
    (fun h i => sha1Block h ((padded.drop (64 * i)).take 64))
    (1732584193, 4023233417, 2562383102, 271733878, 3285377520)

def hexDigit (n : Nat) : Char :=
  if n < 10 then Char.ofNat (48 + n) else Char.ofNat (87 + n)

def hex8 (n : Nat) : List Char :=
  (List.range 8).map fun i => hexDigit ((n >>> (4 * (7 - i))) % 16)

/-- Lowercase hex digest, as `.digest('hex')` returns. -/
def sha1Hex (msg : List Nat) : List Char :=
  match sha1Nums msg with
  | (a, b, c, d, e) => hex8 a ++ hex8 b ++ hex8 c ++ hex8 d ++ hex8 e

/-- The staged entry filename (export-wrapper.js lines 118-120): original
base name without `.md`, a dash, the first 8 hex digits of the SHA-1 of the
resolved PATH (not the content), and `.md`. -/
def stagedMdName (mdPath : String) : String :=
  stripMdExt (basenameStr mdPath) ++ "-"
    ++ String.mk ((sha1Hex (utf8Bytes mdPath)).take 8) ++ ".md"

/-- The staged name a wrapper run would use for a given `inputFile`
(`none` when no candidate input location exists). -/
def stagedNameOf (env : WEnv) (inputFile : String) : Option String :=
  ((possiblePaths env inputFile).find? env.fsExists).map stagedMdName

/-! ### Wrapper pipeline -/

/-- Preparing phase (export-wrapper.js lines 77-111): package.json init,
CLI and default-theme resolution checks with best-effort installs; a failed
install aborts only the remainder of the setup block (its try/catch). -/
def setupEffects (env : WEnv) (root : String) : List WEffect :=
  let cliFx := [WEffect.checkResolve "@slidev/cli"]
    ++ (if env.cliResolvable then [] else [WEffect.installPkg "@slidev/cli"])
  let cliOk := env.cliResolvable || env.installOk "@slidev/cli"
  let tdFx := if cliOk then
      [WEffect.checkResolve "@slidev/theme-default"]
        ++ (if env.themeDefaultResolvable then []
            else [WEffect.installPkg "@slidev/theme-default"])
    else []
  if env.fsExists (joinPath root "package.json") then cliFx ++ tdFx
  else [WEffect.npmInit] ++ (if env.npmInitOk then cliFx ++ tdFx else [])

/-- Playwright ensure phase (export-wrapper.js lines 151-180). -/
def playwrightEffects (env : WEnv) : List WEffect :=
  [WEffect.checkResolve "playwright-chromium"]
    ++ (if env.playwrightResolvable then [] else [WEffect.installPkg "playwright-chromium"])
    ++ [WEffect.playwrightInstallChromium]

/-- Frontmatter theme ensure phase (export-wrapper.js lines 196-227).
`frontmatterTheme` abstracts the regex capture over the file text. -/
def themeEffects (env : WEnv) (mdPath : String) : List WEffect :=
  match env.readFile mdPath with
  | none => []
  | some mdText =>
    match env.frontmatterTheme mdText with
    | none => []
    | some t =>
      if lowerStr t == "none" then []
      else
        let pkg := derivePkgName t
        [WEffect.checkResolve pkg]
          ++ (if env.themeResolvable pkg then [] else [WEffect.installPkg pkg])

/-- Option flags (export-wrapper.js lines 189-193). -/
def flagStringOf (opts : ExpOpts) : String :=
  String.intercalate " "
    ((if opts.withClicks then ["--with-clicks"] else [])
      ++ (match opts.range with
          | some r => ["--range \"" ++ r ++ "\""]
          | none => [])
      ++ (if opts.dark then ["--dark"] else []))

/-- First export command, flags inserted after `export` (lines 183-234). -/
def exportCmd1 (root stagedRel desired flagString : String) : String :=
  "cd \"" ++ root ++ "\" && npx slidev export "
    ++ (if flagString == "" then "" else flagString ++ " ")
    ++ "\"" ++ stagedRel ++ "\" --output \"" ++ desired ++ "\""

/-- Second export command (direct CLI entry script). -/
def exportCmd2 (root stagedRel desired flagString : String) : String :=
  "cd \"" ++ root ++ "\" && node node_modules/@slidev/cli/bin/slidev.mjs export "
    ++ (if flagString == "" then "" else flagString ++ " ")
    ++ "\"" ++ stagedRel ++ "\" --output \"" ++ desired ++ "\""

/-- The attempt loop (export-wrapper.js lines 236-291): first strategy,
playwright self-heal on a playwright-mentioning failure, second strategy,
else the last error is thrown. -/
def exportAttempts (env : WEnv) (cmd1 cmd2 : String) :
    Bool × List WEffect × Option String :=
  if env.execOk 0 then (true, [WEffect.execExport cmd1], none)
  else
    let retryFx := if strContains (env.execErrMsg 0) "playwright"
      then [WEffect.installPkg "playwright-chromium", WEffect.playwrightInstallChromium]
      else []
    if env.execOk 1 then
      (true, [WEffect.execExport cmd1] ++ retryFx ++ [WEffect.execExport cmd2], none)
    else
      (false, [WEffect.execExport cmd1] ++ retryFx ++ [WEffect.execExport cmd2],
       some (env.execErrMsg 1))

/-- The ordered output-location guesses (export-wrapper.js lines 294-309);
`process.cwd()` equals the canonical root after the chdir at line 134. -/
def possibleOutputPaths (root outputPath outputFile desiredOutputFilename
    stagedMdAbsPath mdPath : String) : List String :=
  let mdBase := stripMdExt (basenameStr mdPath)
  [ outputPath,
    resolvePath root outputFile,
    joinPath root outputFile,
    joinPath root outputFile,
    joinPath root desiredOutputFilename,
    joinPath (dirnameStr stagedMdAbsPath) desiredOutputFilename,
    joinPath root "slides-export.pdf",
    joinPath (dirnameStr stagedMdAbsPath) "slides-export.pdf",
    joinPath root (mdBase ++ ".pdf"),
    joinPath root (mdBase ++ "-export.pdf"),
    joinPath (dirnameStr stagedMdAbsPath) (mdBase ++ ".pdf"),
    joinPath (dirnameStr stagedMdAbsPath) (mdBase ++ "-export.pdf") ]

/-- Verifying phase (export-wrapper.js lines 311-336): first existing
candidate is the artifact; if elsewhere, a copy to the requested path is
attempted, and a copy failure is non-fatal (the found location stands). -/
def verifyOutput (env : WEnv) (outputPath : String) (cands : List String) :
    Except String String × List WEffect :=
  match cands.find? env.fsExists with
  | none => (.error "PDF file was not created in any expected location", [])
  | some found =>
    if found = outputPath then (.ok found, [])
    else if env.copyOk found outputPath then
      (.ok outputPath, [WEffect.copyOut found outputPath])
    else (.ok found, [WEffect.copyOut found outputPath])

/-- The wrapper pipeline after input resolution (Preparing, Staging,
Exporting, Verifying). -/
def wrapperMain (env : WEnv) (mdPath outputFile : String) (opts : ExpOpts) :
    WrapperResult × List WEffect :=
  let root := canonicalRootW env
  let setupFx := setupEffects env root
  let stagedRel := joinPath "slides" (stagedMdName mdPath)
  let stagedAbs := joinPath root stagedRel
  let stageFx := [WEffect.stageCopy mdPath stagedAbs]
  if env.stageCopyOk = false then
    ({ success := false, pdfPath := "",
       message := "PDF export failed: " ++ env.stageErrMsg }, setupFx ++ stageFx)
  else
    let fx1 := setupFx ++ stageFx ++ [WEffect.chdir root]
    let outputPath := resolvePath root outputFile
    let desired := basenameStr outputPath
    let pwFx := playwrightEffects env
    let flagString := flagStringOf opts
    let cmd1 := exportCmd1 root stagedRel desired flagString
    let cmd2 := exportCmd2 root stagedRel desired flagString
    let thFx := themeEffects env mdPath
    match exportAttempts env cmd1 cmd2 with
    | (false, execFx, lastErr) =>
      ({ success := false, pdfPath := "",
         message := "PDF export failed: "
           ++ (match lastErr with
               | some m => m
               | none => "All export methods failed") },
       fx1 ++ pwFx ++ thFx ++ execFx)
    | (true, execFx, _) =>
      match verifyOutput env outputPath
          (possibleOutputPaths root outputPath outputFile desired stagedAbs mdPath) with
      | (.error e, vFx) =>
        ({ success := false, pdfPath := "", message := "PDF export failed: " ++ e },
         fx1 ++ pwFx ++ thFx ++ execFx ++ vFx)
      | (.ok actual, vFx) =>
        ({ success := true, pdfPath := actual,
           message := "PDF exported successfully: " ++ actual },
         fx1 ++ pwFx ++ thFx ++ execFx ++ vFx)

/-- The whole `exportToPDF` wrapper (export-wrapper.js lines 18-355): its
outer try/catch converts any thrown error into a structured failure, so the
function is total; the Locating failure short-circuits with an EMPTY effect
trace (no external process is ever invoked). -/
def exportWrapper (env : WEnv) (inputFile outputFile : String) (opts : ExpOpts) :
    WrapperResult × List WEffect :=
  match (possiblePaths env inputFile).find? env.fsExists with
  | none =>
    ({ success := false, pdfPath := "",
       message := "PDF export failed: " ++ ("Input file not found: " ++ inputFile) }, [])
  | some mdPath => wrapperMain env mdPath outputFile opts

/-- A wrapper environment whose filesystem is empty and whose external
commands all fail: used to witness the short-circuit behaviors. -/
def wenv0 : WEnv :=
  { cwd := "/cwd", wrapperRoot := "/wrap", slidevDirEnv := none,
    defaultCanonicalDir := "/proj", fsExists := fun _ => false,
    npmInitOk := true, cliResolvable := true, themeDefaultResolvable := true,
    playwrightResolvable := true, installOk := fun _ => false,
    stageCopyOk := true, stageErrMsg := "", readFile := fun _ => none,
    frontmatterTheme := fun _ => none, themeResolvable := fun _ => false,
    execOk := fun _ => false, execErrMsg := fun _ => "", copyOk := fun _ _ => false }

def c6CexInput : ExportInput :=
  { inputPath := some "/tmp/playwright/deck.md", name := none, outputPath := none,
    withClicks := none, range := none, dark := none }

def c6WitInput : ExportInput :=
  { inputPath := some "/abs/deck.md", name := none, outputPath := none,
    withClicks := none, range := none, dark := none }

def optsDefault : ExpOpts := { withClicks := false, range := none, dark := false }


/-- An environment in which exactly `/found.pdf` exists and copies fail. -/
def wenvFound : WEnv :=
  { wenv0 with
    fsExists := fun p => p == "/found.pdf"
    copyOk := fun _ _ => false }

/-- An environment in which staging and the first export command succeed
but no output file ever appears. -/
def wenvRun : WEnv :=
  { wenv0 with execOk := fun _ => true }

/-- An environment whose staged document carries a `theme: seriph`
frontmatter entry that is not yet installed. -/
def wenvTheme : WEnv :=
  { wenv0 with
    readFile := fun _ => some "---\ntheme: seriph\n---\n"
    frontmatterTheme := fun _ => some "seriph" }

/-- Two environments agreeing on every path-relevant field but serving
different CONTENTS for the same file. -/
def wenvA : WEnv :=
  { wenv0 with
    fsExists := fun p => p == "/cwd/deck.md"
    readFile := fun _ => some "content A" }

def wenvB : WEnv :=
  { wenv0 with
    fsExists := fun p => p == "/cwd/deck.md"
    readFile := fun _ => some "completely different content B" }

/-! ## Theorems -/

theorem strData_append (a b : String) : (a ++ b).data = a.data ++ b.data := rfl

theorem strData_eq_nil_iff (s : String) : s.data = [] ↔ s = "" := by
  constructor
  · intro h
    cases s with
    | mk d => cases h; rfl
  · intro h; rw [h]

/-- Character-level occurrence counter: the number of positions of `s` at which
the pattern `p` occurs (for patterns without self-overlap, such as all patterns
used below, this is exactly what the JavaScript `str.match(/pat/g)` count and
`String.prototype.includes` observe). -/

theorem countOccs_nil (p : List Char) : countOccs p [] = 0 := rfl

theorem countOccs_cons (p : List Char) (c : Char) (t : List Char) :
    countOccs p (c :: t) = (if p <+: c :: t then 1 else 0) + countOccs p t := rfl

/-- Splitting an occurrence count across an append, provided no occurrence
spans the boundary (hypothesis `h`). -/
theorem countOccs_append_of_noSpan (p x y : List Char)
    (h : ∀ i, i < x.length → p <+: x.drop i ++ y → p <+: x.drop i) :
    countOccs p (x ++ y) = countOccs p x + countOccs p y := by
  induction x with
  | nil => simp [countOccs]
  | cons c t ih =>
    have hcond : (p <+: c :: (t ++ y)) ↔ (p <+: c :: t) := by
      constructor
      · intro hp
        have h0 := h 0 (Nat.succ_pos _)
        exact h0 (by simpa using hp)
      · intro hp
        exact hp.trans (List.prefix_append (c :: t) y)
    have ih' : countOccs p (t ++ y) = countOccs p t + countOccs p y := by
      refine ih ?_
      intro i hi hp
      have := h (i + 1) (Nat.succ_lt_succ hi)
      exact this (by simpa [List.drop_succ_cons] using hp)
    show (if p <+: c :: (t ++ y) then 1 else 0) + countOccs p (t ++ y)
        = ((if p <+: c :: t then 1 else 0) + countOccs p t) + countOccs p y
    rw [if_congr hcond rfl rfl, ih']
    omega

/-- A spanning occurrence forces the left part's suffix to be a proper prefix
of the pattern whose continuation starts the right part; so ruling those
situations out (hypothesis `h`) rules out spanning occurrences. -/
theorem noSpan_of_suffix_cond (p x y : List Char)
    (h : ∀ k, 0 < k → k < p.length → x.drop (x.length - k) = p.take k →
        ¬ (p.drop k <+: y)) :
    ∀ i, i < x.length → p <+: x.drop i ++ y → p <+: x.drop i := by
  intro i hi hp
  by_contra hnot
  set d := x.drop i with hd
  have hdlen : d.length = x.length - i := List.length_drop i x
  have hkpos : 0 < d.length := by omega
  by_cases hle : p.length ≤ d.length
  · -- the whole pattern fits inside the left part: not spanning after all
    apply hnot
    have htake : p = (d ++ y).take p.length := List.prefix_iff_eq_take.mp hp
    have htake2 : (d ++ y).take p.length = d.take p.length :=
      List.take_append_of_le_length hle
    rw [List.prefix_iff_eq_take]
    calc p = (d ++ y).take p.length := htake
    _ = d.take p.length := htake2
  · have hklt : d.length < p.length := by omega
    obtain ⟨r, hr⟩ := hp
    have hdp : d = p.take d.length := by
      have h1 : (d ++ y).take d.length = d := List.take_left d y
      rw [← hr, List.take_append_of_le_length (Nat.le_of_lt hklt)] at h1
      exact h1.symm
    have hdropy : p.drop d.length <+: y := by
      refine ⟨r, ?_⟩
      have h2 : p.take d.length ++ (p.drop d.length ++ r) = p.take d.length ++ y := by
        rw [← List.append_assoc, List.take_append_drop, hr, ← hdp]
      exact List.append_cancel_left h2
    have hidx : x.length - d.length = i := by omega
    refine h d.length hkpos hklt ?_ hdropy
    rw [hidx, ← hd, ← hdp]

theorem countOccs_append_cond (p x y : List Char)
    (h : ∀ k, 0 < k → k < p.length → x.drop (x.length - k) = p.take k →
        ¬ (p.drop k <+: y)) :
    countOccs p (x ++ y) = countOccs p x + countOccs p y :=
  countOccs_append_of_noSpan p x y (noSpan_of_suffix_cond p x y h)

/-- If no nonempty suffix of `x` is a proper prefix of `p`, occurrences never
span the boundary, whatever `y` is.  The hypothesis is decidable for concrete
`x` and `p`. -/
theorem countOccs_append_noSuffix (p x y : List Char)
    (h : ∀ k, k < p.length → 0 < k → x.drop (x.length - k) ≠ p.take k) :
    countOccs p (x ++ y) = countOccs p x + countOccs p y := by
  refine countOccs_append_cond p x y ?_
  intro k hk0 hklt heq
  exact absurd heq (h k hklt hk0)

theorem countOccs_append_le (p x y : List Char) :
    countOccs p x ≤ countOccs p (x ++ y) := by
  induction x with
  | nil => simp [countOccs]
  | cons c t ih =>
    show ((if p <+: c :: t then 1 else 0) + countOccs p t)
        ≤ (if p <+: c :: (t ++ y) then 1 else 0) + countOccs p (t ++ y)
    have : (if p <+: c :: t then 1 else 0) ≤ (if p <+: c :: (t ++ y) then 1 else 0) := by
      by_cases hp : p <+: c :: t
      · have hp2 : p <+: c :: (t ++ y) := hp.trans (List.prefix_append (c :: t) y)
        rw [if_pos hp, if_pos hp2]
      · simp [hp]
    omega

theorem countOccs_pos_of_prefix_drop (p s : List Char) (j : Nat)
    (hj : j < s.length) (hp : p <+: s.drop j) : 0 < countOccs p s := by
  induction s generalizing j with
  | nil => simp at hj
  | cons c t ih =>
    cases j with
    | zero =>
      rw [countOccs_cons, if_pos (by simpa using hp)]
      omega
    | succ j' =>
      have h1 : 0 < countOccs p t :=
        ih j' (by simpa using hj) (by exact hp)
      rw [countOccs_cons]
      omega

theorem countOccs_pos_append_left (p x y : List Char) (h : 0 < countOccs p x) :
    0 < countOccs p (x ++ y) :=
  Nat.lt_of_lt_of_le h (countOccs_append_le p x y)

/-! ## The slide-separator pattern

`export_to_pdf` counts slides with a global regex matching the literal text
`---` + newline + `layout:`, and spec §8.1 states the built document contains
exactly `slides.length` such occurrences. -/

theorem cleanOpt_some (o : Option String) (s : String) (ho : o = some s)
    (h : cleanOpt o) : cleanStr s := by
  rw [ho] at h; exact h

theorem countOccs_layoutPat_zero (f : List Char) (hf : countOccs dashPat f = 0) :
    countOccs layoutPat f = 0 := by
  induction f with
  | nil => rfl
  | cons c t ih =>
    have h1 : ¬ dashPat <+: c :: t := by
      intro hp
      rw [countOccs_cons, if_pos hp] at hf
      omega
    have h2 : countOccs dashPat t = 0 := by
      rw [countOccs_cons] at hf
      omega
    have h3 : ¬ layoutPat <+: c :: t := by
      intro hp
      exact h1 ((by decide : dashPat <+: layoutPat).trans hp)
    rw [countOccs_cons, if_neg h3, ih h2]

/-- No occurrence of the separator pattern can start inside a `---`-free
string `f` when what follows does not begin with `'-'`; so appending such a
field contributes no occurrences. -/
theorem countOccs_append_field (f y : List Char) (hf : countOccs dashPat f = 0)
    (hy : y.head? ≠ some '-') :
    countOccs layoutPat (f ++ y) = countOccs layoutPat y := by
  have hcond : ∀ k, 0 < k → k < layoutPat.length →
      f.drop (f.length - k) = layoutPat.take k → ¬ (layoutPat.drop k <+: y) := by
    intro k hk0 hklt heq
    have hklt11 : k < 11 := hklt
    have hlen := congrArg List.length heq
    rw [List.length_drop, List.length_take] at hlen
    have hmin : min k layoutPat.length = k := Nat.min_eq_left (Nat.le_of_lt hklt)
    rw [hmin] at hlen
    have hkle : k ≤ f.length := by omega
    have hjlt : f.length - k < f.length := by omega
    interval_cases k
    · intro hpre
      obtain ⟨r, hr⟩ := hpre
      exact hy (by rw [← hr]; rfl)
    · intro hpre
      obtain ⟨r, hr⟩ := hpre
      exact hy (by rw [← hr]; rfl)
    · exfalso
      have hpos := countOccs_pos_of_prefix_drop dashPat f (f.length - 3) hjlt
        (by rw [heq]; decide)
      omega
    · exfalso
      have hpos := countOccs_pos_of_prefix_drop dashPat f (f.length - 4) hjlt
        (by rw [heq]; decide)
      omega
    · exfalso
      have hpos := countOccs_pos_of_prefix_drop dashPat f (f.length - 5) hjlt
        (by rw [heq]; decide)
      omega
    · exfalso
      have hpos := countOccs_pos_of_prefix_drop dashPat f (f.length - 6) hjlt
        (by rw [heq]; decide)
      omega
    · exfalso
      have hpos := countOccs_pos_of_prefix_drop dashPat f (f.length - 7) hjlt
        (by rw [heq]; decide)
      omega
    · exfalso
      have hpos := countOccs_pos_of_prefix_drop dashPat f (f.length - 8) hjlt
        (by rw [heq]; decide)
      omega
    · exfalso
      have hpos := countOccs_pos_of_prefix_drop dashPat f (f.length - 9) hjlt
        (by rw [heq]; decide)
      omega
    · exfalso
      have hpos := countOccs_pos_of_prefix_drop dashPat f (f.length - 10) hjlt
        (by rw [heq]; decide)
      omega
  rw [countOccs_append_cond layoutPat f y hcond, countOccs_layoutPat_zero f hf,
    Nat.zero_add]

/-- When the only pattern-prefix suffix a block can end with is `---⏎`
(established by `hx`, decidable for concrete blocks), occurrences cannot span
into a continuation that does not start with `'l'`. -/
theorem countOccs_append_k4 (x y : List Char)
    (hx : ∀ k, k < 11 → 0 < k → x.drop (x.length - k) = layoutPat.take k → k = 4)
    (hy : y.head? ≠ some 'l') :
    countOccs layoutPat (x ++ y) = countOccs layoutPat x + countOccs layoutPat y := by
  refine countOccs_append_cond layoutPat x y ?_
  intro k hk0 hklt heq
  have hk4 : k = 4 := hx k hklt hk0 heq
  subst hk4
  intro hpre
  obtain ⟨r, hr⟩ := hpre
  exact hy (by rw [← hr]; rfl)

/-- Newline-headed (or empty) strings: the shape of everything that can follow
a slide block in the built document. -/

theorem nlHead_ne_l (l : List Char) (h : nlHead l) : l.head? ≠ some 'l' := by
  cases h with
  | inl h => rw [h]; simp
  | inr h => rw [h]; simp

theorem nlHead_ne_dash (l : List Char) (h : nlHead l) : l.head? ≠ some '-' := by
  cases h with
  | inl h => rw [h]; simp
  | inr h => rw [h]; simp

/-! ## Data model: slides and build input

Mirrors the zod `inputSchema` of `build_complete_presentation` (index.js
lines 235-255): every per-slide field is optional, `theme` is nullable and
optional (both modelled as `Option`), `author` optional. -/

theorem slidePiece_zero (inp : BuildInput) (s : Slide) :
    slidePiece inp s 0 = firstChunkStr inp s := by
  simp [slidePiece, firstChunkStr, bodyStr, String.append_assoc]

theorem slidePiece_succ (inp : BuildInput) (s : Slide) (n : Nat) (hn : n ≠ 0) :
    slidePiece inp s n = laterChunkStr s := by
  simp [slidePiece, laterChunkStr, bodyStr, hn, String.append_assoc]

theorem foldl_enumFrom_piece (inp : BuildInput) (l : List Slide) :
    ∀ (n : Nat), n ≠ 0 → ∀ (acc : String),
      (l.enumFrom n).foldl (fun md p => md ++ slidePiece inp p.2 p.1) acc
        = acc ++ restDocStr l := by
  induction l with
  | nil => intro n _ acc; simp [restDocStr, String.append_empty]
  | cons s r ih =>
    intro n hn acc
    show (r.enumFrom (n + 1)).foldl (fun md p => md ++ slidePiece inp p.2 p.1)
        (acc ++ slidePiece inp s n) = acc ++ restDocStr (s :: r)
    rw [ih (n + 1) (Nat.succ_ne_zero n) (acc ++ slidePiece inp s n),
      slidePiece_succ inp s n hn]
    show acc ++ laterChunkStr s ++ restDocStr r = acc ++ (laterChunkStr s ++ restDocStr r)
    rw [String.append_assoc]

/-- Shape of the built document: first chunk followed by the later chunks. -/
theorem buildMarkdown_shape (inp : BuildInput) (s0 : Slide) (rest : List Slide)
    (h : inp.slides = s0 :: rest) :
    buildMarkdown inp = firstChunkStr inp s0 ++ restDocStr rest := by
  unfold buildMarkdown
  rw [h]
  show (rest.enumFrom 1).foldl (fun md p => md ++ slidePiece inp p.2 p.1)
      ("" ++ slidePiece inp s0 0) = firstChunkStr inp s0 ++ restDocStr rest
  rw [foldl_enumFrom_piece inp rest 1 (by omega), String.empty_append,
    slidePiece_zero]

theorem strTruthy_iff (s : String) : strTruthy s = true ↔ s ≠ "" := by
  cases s with
  | mk d =>
    cases d with
    | nil =>
      constructor
      · intro h; exact absurd h (by decide)
      · intro h; exact absurd rfl h
    | cons c t =>
      constructor
      · intro _ h
        have h2 := congrArg String.data h
        simp at h2
      · intro _; rfl

theorem strAppend_ne_empty_left (a b : String) (ha : a ≠ "") : a ++ b ≠ "" := by
  intro h
  have h2 := congrArg String.data h
  rw [strData_append] at h2
  have h3 := List.append_eq_nil.mp h2
  exact ha ((strData_eq_nil_iff a).mp h3.1)

theorem strPrefixB_of_append (p t s : String) (h : s = p ++ t) :
    strPrefixB p s = true := by
  rw [h]
  unfold strPrefixB
  rw [List.isPrefixOf_iff_prefix]
  exact ⟨t.data, rfl⟩

/-- Characterization of the fenced code block: it is emitted exactly when
both `code` and `codeLanguage` are present and non-empty. -/
theorem codePart_ne_empty_iff (s : Slide) :
    codePart s ≠ "" ↔
      ∃ c l, s.code = some c ∧ s.codeLanguage = some l ∧ c ≠ "" ∧ l ≠ "" := by
  cases hc : s.code with
  | none =>
    simp only [codePart, hc]
    constructor
    · intro h
      cases hl : s.codeLanguage <;> simp [hl] at h
    · rintro ⟨c, l, hcc, -, -, -⟩
      cases hcc
  | some c =>
    cases hl : s.codeLanguage with
    | none =>
      simp only [codePart, hc, hl]
      constructor
      · intro h; exact absurd rfl h
      · rintro ⟨c', l', -, hll, -, -⟩
        cases hll
    | some l =>
      simp only [codePart, hc, hl]
      by_cases ht : strTruthy c && strTruthy l
      · rw [if_pos ht]
        simp only [Bool.and_eq_true] at ht
        constructor
        · intro _
          exact ⟨c, l, rfl, rfl, (strTruthy_iff c).mp ht.1, (strTruthy_iff l).mp ht.2⟩
        · intro _
          intro hEq
          have h2 := congrArg String.data hEq
          simp [strData_append] at h2
      · rw [if_neg ht]
        constructor
        · intro h; exact absurd rfl h
        · rintro ⟨c', l', hcc, hll, hc', hl'⟩
          obtain rfl : c = c' := by injection hcc
          obtain rfl : l = l' := by injection hll
          have hb : (strTruthy c && strTruthy l) = true := by
            simp only [Bool.and_eq_true]
            exact ⟨(strTruthy_iff c).mpr hc', (strTruthy_iff l).mpr hl'⟩
          exact absurd hb ht

theorem codePart_eq_fence (s : Slide) (c l : String) (hc : s.code = some c)
    (hl : s.codeLanguage = some l) (hc' : c ≠ "") (hl' : l ≠ "") :
    codePart s = "\n```" ++ l ++ "\n" ++ c ++ "\n```\n" := by
  simp [codePart, hc, hl, (strTruthy_iff c).mpr hc', (strTruthy_iff l).mpr hl']

/-- C1 (amended): for any non-empty slide sequence, the document opens with a
block declaring `layout: L` where `L` is the first slide's explicit layout if
it is non-empty after trimming and `"cover"` otherwise; and the rest of the
document is the concatenation of one chunk per later slide, each opening with
`layout: L'` where `L'` is that slide's explicit layout if non-empty after
trimming and `"default"` otherwise (see `resolveLayout`, `laterChunkStr`). -/
theorem c1_layout_declarations (inp : BuildInput) (s0 : Slide) (rest : List Slide)
    (h : inp.slides = s0 :: rest) :
    strPrefixB ("---\nlayout: " ++ resolveLayout s0.layout "cover" ++ "\n")
        (buildMarkdown inp) = true
      ∧ buildMarkdown inp = firstChunkStr inp s0 ++ restDocStr rest := by
  have hshape := buildMarkdown_shape inp s0 rest h
  refine ⟨?_, hshape⟩
  refine strPrefixB_of_append _
    (themeLine inp ++ ("title: \"" ++ inp.title ++ "\"\n") ++ authorLine inp
      ++ "---\n" ++ bodyStr s0 ++ restDocStr rest) _ ?_
  rw [hshape]
  unfold firstChunkStr firstSlideHeader
  have hext : ∀ a b : String, a.data = b.data → a = b := by
    intro a b hab
    cases a; cases b; cases hab; rfl
  apply hext
  simp only [strData_append, List.append_assoc, List.cons_append, List.nil_append]

/-- C1 witness: the amended statement at a concrete two-slide deck. -/
theorem c1_layout_declarations_witness :
    strPrefixB ("---\nlayout: " ++ resolveLayout c1WitS0.layout "cover" ++ "\n")
        (buildMarkdown c1WitInput) = true
      ∧ buildMarkdown c1WitInput = firstChunkStr c1WitInput c1WitS0 ++ restDocStr c1WitRest :=
  c1_layout_declarations c1WitInput c1WitS0 c1WitRest rfl

/-- C1 counterexample: for a first slide with the explicit layout `""`, the
claim as stated predicts a first block declaring the explicit layout (i.e.
the document starts with `---⏎layout: ⏎`), but the code emits `cover`. -/
theorem c1_cex :
    c1CexInput.slides.map Slide.layout = [some ""]
      ∧ strPrefixB ("---\nlayout: " ++ "" ++ "\n") (buildMarkdown c1CexInput) = false
      ∧ strPrefixB ("---\nlayout: " ++ "cover" ++ "\n") (buildMarkdown c1CexInput) = true := by
  refine ⟨rfl, ?_, ?_⟩ <;> decide

/-- C3 (amended): the built document decomposes slide by slide, and within
every slide's chunk the emission order is block header, then heading, then
raw content, then fenced code block; the fence is emitted iff both `code`
and `codeLanguage` are present and non-empty, and then its language tag is
exactly `codeLanguage`. -/
theorem c3_code_fence (inp : BuildInput) (s0 : Slide) (rest : List Slide)
    (h : inp.slides = s0 :: rest) :
    buildMarkdown inp
        = (firstSlideHeader inp s0
            ++ (titlePart s0 ++ contentPart s0 ++ codePart s0)) ++ restDocStr rest
      ∧ (∀ s : Slide, codePart s ≠ "" ↔
          ∃ c l, s.code = some c ∧ s.codeLanguage = some l ∧ c ≠ "" ∧ l ≠ "")
      ∧ (∀ (s : Slide) (c l : String), s.code = some c → s.codeLanguage = some l →
          c ≠ "" → l ≠ "" → codePart s = "\n```" ++ l ++ "\n" ++ c ++ "\n```\n") := by
  refine ⟨?_, codePart_ne_empty_iff, codePart_eq_fence⟩
  rw [buildMarkdown_shape inp s0 rest h]
  rfl

/-- C3 witness: the amended statement at a concrete one-slide deck carrying a
code block. -/
theorem c3_code_fence_witness :
    buildMarkdown c3WitInput
        = (firstSlideHeader c3WitInput c3WitS0
            ++ (titlePart c3WitS0 ++ contentPart c3WitS0 ++ codePart c3WitS0))
          ++ restDocStr []
      ∧ (∀ s : Slide, codePart s ≠ "" ↔
          ∃ c l, s.code = some c ∧ s.codeLanguage = some l ∧ c ≠ "" ∧ l ≠ "")
      ∧ (∀ (s : Slide) (c l : String), s.code = some c → s.codeLanguage = some l →
          c ≠ "" → l ≠ "" → codePart s = "\n```" ++ l ++ "\n" ++ c ++ "\n```\n") :=
  c3_code_fence c3WitInput c3WitS0 [] rfl

/-- C3 counterexample: a slide whose `code` and `codeLanguage` are both
present (so the claim as stated demands a fence), yet the built document
contains no backtick fence at all because `code` is the empty string. -/
theorem c3_cex :
    c3CexInput.slides.map Slide.code = [some ""]
      ∧ c3CexInput.slides.map Slide.codeLanguage = [some "js"]
      ∧ countOccs "```".data (buildMarkdown c3CexInput).data = 0 := by
  refine ⟨rfl, rfl, ?_⟩
  decide

theorem head_ne_of (c c' : Char) (l : List Char) (hl : l.head? = some c)
    (hne : c ≠ c') : l.head? ≠ some c' := by
  rw [hl]
  intro hEq
  injection hEq with h2
  exact hne h2

theorem clean_resolveLayout (o : Option String) (ho : cleanOpt o) (d : String)
    (hd : cleanStr d) : cleanStr (resolveLayout o d) := by
  cases ho' : o with
  | none => simpa [resolveLayout] using hd
  | some l =>
    by_cases hnw : hasNonWS l
    · have hcl := cleanOpt_some o l ho' ho
      simpa [resolveLayout, hnw] using hcl
    · simpa [resolveLayout, hnw] using hd

/-- Prepending a block with no dangerous suffix and no occurrence. -/
theorem countStep_lit0 (x : List Char)
    (hx : ∀ k, k < layoutPat.length → 0 < k → x.drop (x.length - k) ≠ layoutPat.take k)
    (h0 : countOccs layoutPat x = 0) (R : List Char) :
    countOccs layoutPat (x ++ R) = countOccs layoutPat R := by
  rw [countOccs_append_noSuffix layoutPat x R hx, h0, Nat.zero_add]

/-- Prepending a block with no dangerous suffix containing exactly one
occurrence (the heads of the emitted slide blocks). -/
theorem countStep_lit1 (x : List Char)
    (hx : ∀ k, k < layoutPat.length → 0 < k → x.drop (x.length - k) ≠ layoutPat.take k)
    (h1 : countOccs layoutPat x = 1) (R : List Char) :
    countOccs layoutPat (x ++ R) = 1 + countOccs layoutPat R := by
  rw [countOccs_append_noSuffix layoutPat x R hx, h1]

/-- Prepending a delimiter-free field followed by a safe literal separator. -/
theorem countStep_field (f : List Char) (hf : countOccs dashPat f = 0)
    (sep : List Char)
    (hsep : ∀ k, k < layoutPat.length → 0 < k → sep.drop (sep.length - k) ≠ layoutPat.take k)
    (hsep0 : countOccs layoutPat sep = 0)
    (hhead : ∀ R, (sep ++ R).head? ≠ some '-') (R : List Char) :
    countOccs layoutPat (f ++ (sep ++ R)) = countOccs layoutPat R := by
  rw [countOccs_append_field f (sep ++ R) hf (hhead R),
    countOccs_append_noSuffix layoutPat sep R hsep, hsep0, Nat.zero_add]

/-- Prepending a delimiter-free field directly. -/
theorem countStep_field2 (f : List Char) (hf : countOccs dashPat f = 0)
    (R : List Char) (hR : R.head? ≠ some '-') :
    countOccs layoutPat (f ++ R) = countOccs layoutPat R :=
  countOccs_append_field f R hf hR

/-- Prepending a block whose only dangerous suffix is the delimiter-plus-
newline (the block trailer): safe whenever what follows does not begin
with `'l'`. -/
theorem countStep_k4 (x : List Char)
    (hx : ∀ k, k < 11 → 0 < k → x.drop (x.length - k) = layoutPat.take k → k = 4)
    (h0 : countOccs layoutPat x = 0) (R : List Char) (hR : R.head? ≠ some 'l') :
    countOccs layoutPat (x ++ R) = countOccs layoutPat R := by
  rw [countOccs_append_k4 x R hx hR, h0, Nat.zero_add]

theorem themeLine_count (inp : BuildInput) (hc : cleanOpt inp.theme) (y : List Char) :
    countOccs layoutPat ((themeLine inp).data ++ y) = countOccs layoutPat y := by
  cases hth : inp.theme with
  | none => simp [themeLine, hth]
  | some t =>
    by_cases htt : hasNonWS t
    · have hl : themeLine inp = "theme: " ++ t ++ "\n" := by simp [themeLine, hth, htt]
      rw [hl]
      simp only [strData_append, List.append_assoc]
      rw [countStep_lit0 ['t', 'h', 'e', 'm', 'e', ':', ' '] (by decide) (by decide),
        countStep_field t.data (cleanOpt_some _ _ hth hc) ['\n'] (by decide) (by decide)
          (fun R => head_ne_of '\n' '-' (['\n'] ++ R) rfl (by decide))]
    · simp [themeLine, hth, htt]

theorem authorLine_count (inp : BuildInput) (hc : cleanOpt inp.author) (y : List Char) :
    countOccs layoutPat ((authorLine inp).data ++ y) = countOccs layoutPat y := by
  cases hau : inp.author with
  | none => simp [authorLine, hau]
  | some a =>
    by_cases hta : strTruthy a
    · have hl : authorLine inp = "author: \"" ++ a ++ "\"\n" := by
        simp [authorLine, hau, hta]
      rw [hl]
      simp only [strData_append, List.append_assoc]
      rw [countStep_lit0 ['a', 'u', 't', 'h', 'o', 'r', ':', ' ', '\"'] (by decide) (by decide),
        countStep_field a.data (cleanOpt_some _ _ hau hc) ['\"', '\n'] (by decide) (by decide)
          (fun R => head_ne_of '\"' '-' (['\"', '\n'] ++ R) rfl (by decide))]
    · simp [authorLine, hau, hta]

theorem titlePart_count (s : Slide) (hc : cleanOpt s.title) (y : List Char)
    (hy : nlHead y) :
    countOccs layoutPat ((titlePart s).data ++ y) = countOccs layoutPat y
      ∧ nlHead ((titlePart s).data ++ y) := by
  cases hts : s.title with
  | none =>
    constructor
    · simp [titlePart, hts]
    · simpa [titlePart, hts] using hy
  | some t =>
    by_cases htt : strTruthy t
    · have htp : titlePart s = "\n# " ++ t ++ "\n" := by simp [titlePart, hts, htt]
      rw [htp]
      constructor
      · simp only [strData_append, List.append_assoc]
        rw [countStep_lit0 ['\n', '#', ' '] (by decide) (by decide),
          countStep_field t.data (cleanOpt_some _ _ hts hc) ['\n'] (by decide) (by decide)
            (fun R => head_ne_of '\n' '-' (['\n'] ++ R) rfl (by decide))]
      · right
        simp only [strData_append, List.append_assoc]
        rfl
    · constructor
      · simp [titlePart, hts, htt]
      · simpa [titlePart, hts, htt] using hy

theorem contentPart_count (s : Slide) (hc : cleanOpt s.content) (y : List Char)
    (hy : nlHead y) :
    countOccs layoutPat ((contentPart s).data ++ y) = countOccs layoutPat y
      ∧ nlHead ((contentPart s).data ++ y) := by
  cases hcs : s.content with
  | none =>
    constructor
    · simp [contentPart, hcs]
    · simpa [contentPart, hcs] using hy
  | some c =>
    by_cases htc : strTruthy c
    · have hcp : contentPart s = "\n" ++ c ++ "\n" := by simp [contentPart, hcs, htc]
      rw [hcp]
      constructor
      · simp only [strData_append, List.append_assoc]
        rw [countStep_lit0 ['\n'] (by decide) (by decide),
          countStep_field c.data (cleanOpt_some _ _ hcs hc) ['\n'] (by decide) (by decide)
            (fun R => head_ne_of '\n' '-' (['\n'] ++ R) rfl (by decide))]
      · right
        simp only [strData_append, List.append_assoc]
        rfl
    · constructor
      · simp [contentPart, hcs, htc]
      · simpa [contentPart, hcs, htc] using hy

theorem codePart_count (s : Slide) (hc : cleanOpt s.code) (hl : cleanOpt s.codeLanguage)
    (y : List Char) (hy : nlHead y) :
    countOccs layoutPat ((codePart s).data ++ y) = countOccs layoutPat y
      ∧ nlHead ((codePart s).data ++ y) := by
  cases hcc : s.code with
  | none =>
    constructor
    · simp [codePart, hcc]
    · simpa [codePart, hcc] using hy
  | some c =>
    cases hll : s.codeLanguage with
    | none =>
      constructor
      · simp [codePart, hcc, hll]
      · simpa [codePart, hcc, hll] using hy
    | some l =>
      by_cases ht : (strTruthy c && strTruthy l) = true
      · have hcp : codePart s = "\n```" ++ l ++ "\n" ++ c ++ "\n```\n" := by
          simp [codePart, hcc, hll, ht]
        rw [hcp]
        constructor
        · simp only [strData_append, List.append_assoc]
          rw [countStep_lit0 ['\n', '`', '`', '`'] (by decide) (by decide),
            countStep_field l.data (cleanOpt_some _ _ hll hl) ['\n'] (by decide) (by decide)
              (fun R => head_ne_of '\n' '-' (['\n'] ++ R) rfl (by decide)),
            countStep_field c.data (cleanOpt_some _ _ hcc hc) ['\n', '`', '`', '`', '\n']
              (by decide) (by decide)
              (fun R => head_ne_of '\n' '-' (['\n', '`', '`', '`', '\n'] ++ R) rfl (by decide))]
        · right
          simp only [strData_append, List.append_assoc]
          rfl
      · constructor
        · simp [codePart, hcc, hll, ht]
        · simpa [codePart, hcc, hll, ht] using hy

theorem bodyStr_count (s : Slide) (hs : cleanSlideP s) (y : List Char)
    (hy : nlHead y) :
    countOccs layoutPat ((bodyStr s).data ++ y) = countOccs layoutPat y
      ∧ nlHead ((bodyStr s).data ++ y) := by
  obtain ⟨hc1, hc2⟩ := codePart_count s hs.2.2.2.1 hs.2.2.2.2 y hy
  obtain ⟨hb1, hb2⟩ := contentPart_count s hs.2.2.1 ((codePart s).data ++ y) hc2
  obtain ⟨ha1, ha2⟩ := titlePart_count s hs.2.1
    ((contentPart s).data ++ ((codePart s).data ++ y)) hb2
  constructor
  · simp only [bodyStr, strData_append, List.append_assoc]
    rw [ha1, hb1, hc1]
  · simp only [bodyStr, strData_append, List.append_assoc]
    exact ha2

theorem laterChunk_count (s : Slide) (hs : cleanSlideP s) (y : List Char)
    (hy : nlHead y) :
    countOccs layoutPat ((laterChunkStr s).data ++ y) = 1 + countOccs layoutPat y
      ∧ nlHead ((laterChunkStr s).data ++ y) := by
  obtain ⟨hbc, hbh⟩ := bodyStr_count s hs y hy
  constructor
  · simp only [laterChunkStr, strData_append, List.append_assoc]
    rw [countStep_lit1 ['\n', '-', '-', '-', '\n', 'l', 'a', 'y', 'o', 'u', 't', ':', ' ']
        (by decide) (by decide),
      countStep_field2 (resolveLayout s.layout "default").data
        (clean_resolveLayout s.layout hs.1 "default" (by decide))
        (['\n', '-', '-', '-', '\n'] ++ ((bodyStr s).data ++ y))
        (head_ne_of '\n' '-' _ rfl (by decide)),
      countStep_k4 ['\n', '-', '-', '-', '\n'] (by decide) (by decide)
        ((bodyStr s).data ++ y) (nlHead_ne_l _ hbh),
      hbc]
  · right
    simp only [laterChunkStr, strData_append, List.append_assoc]
    rfl

theorem restDoc_count (l : List Slide) (hc : ∀ s ∈ l, cleanSlideP s) :
    countOccs layoutPat (restDocStr l).data = l.length
      ∧ nlHead (restDocStr l).data := by
  induction l with
  | nil => exact ⟨rfl, Or.inl rfl⟩
  | cons s r ih =>
    have ihr := ih fun s' hs' => hc s' (List.mem_cons_of_mem s hs')
    have hlc := laterChunk_count s (hc s (List.mem_cons_self s r)) (restDocStr r).data ihr.2
    have hsplit : (restDocStr (s :: r)).data
        = (laterChunkStr s).data ++ (restDocStr r).data := rfl
    constructor
    · rw [hsplit, hlc.1, ihr.1, List.length_cons]
      omega
    · rw [hsplit]
      exact hlc.2

theorem firstChunk_count (inp : BuildInput) (s0 : Slide) (hT : cleanStr inp.title)
    (hTh : cleanOpt inp.theme) (hA : cleanOpt inp.author) (hs : cleanSlideP s0)
    (y : List Char) (hy : nlHead y) :
    countOccs layoutPat ((firstChunkStr inp s0).data ++ y)
      = 1 + countOccs layoutPat y := by
  obtain ⟨hbc, hbh⟩ := bodyStr_count s0 hs y hy
  simp only [firstChunkStr, firstSlideHeader, strData_append, List.append_assoc]
  rw [← List.append_assoc, show (['-', '-', '-', '\n'] ++ ['l', 'a', 'y', 'o', 'u', 't', ':', ' ']
      : List Char) = ['-', '-', '-', '\n', 'l', 'a', 'y', 'o', 'u', 't', ':', ' '] from rfl,
    countStep_lit1 ['-', '-', '-', '\n', 'l', 'a', 'y', 'o', 'u', 't', ':', ' ']
      (by decide) (by decide),
    countStep_field (resolveLayout s0.layout "cover").data
      (clean_resolveLayout s0.layout hs.1 "cover" (by decide)) ['\n'] (by decide) (by decide)
      (fun R => head_ne_of '\n' '-' (['\n'] ++ R) rfl (by decide)),
    themeLine_count inp hTh,
    countStep_lit0 ['t', 'i', 't', 'l', 'e', ':', ' ', '\"'] (by decide) (by decide),
    countStep_field inp.title.data hT ['\"', '\n'] (by decide) (by decide)
      (fun R => head_ne_of '\"' '-' (['\"', '\n'] ++ R) rfl (by decide)),
    authorLine_count inp hA,
    countStep_k4 ['-', '-', '-', '\n'] (by decide) (by decide)
      ((bodyStr s0).data ++ y) (nlHead_ne_l _ hbh),
    hbc]

/-- C2 (amended): for any non-empty slide sequence in which no interpolated
field (per-slide layout, title, content, code, codeLanguage; deck title,
theme, author) contains the frontmatter delimiter `---`, the built document
contains exactly `slides.length` occurrences of the slide-separator pattern
`---` + newline + `layout:` that `export_to_pdf` counts. -/
theorem c2_separator_count (inp : BuildInput) (hne : inp.slides ≠ [])
    (hc : cleanInputP inp) :
    countOccs layoutPat (buildMarkdown inp).data = inp.slides.length := by
  obtain ⟨s0, rest, hsl⟩ := List.exists_cons_of_ne_nil hne
  have hs0 : cleanSlideP s0 := hc.2.2.2 s0 (by rw [hsl]; exact List.mem_cons_self s0 rest)
  have hrest := restDoc_count rest fun s' hmem =>
    hc.2.2.2 s' (by rw [hsl]; exact List.mem_cons_of_mem s0 hmem)
  rw [buildMarkdown_shape inp s0 rest hsl, strData_append,
    firstChunk_count inp s0 hc.1 hc.2.1 hc.2.2.1 hs0 (restDocStr rest).data hrest.2,
    hrest.1, hsl, List.length_cons]
  omega

/-- C2 witness: the amended count at a concrete clean two-slide deck with a
theme and an author. -/
theorem c2_separator_count_witness :
    countOccs layoutPat (buildMarkdown c2WitInput).data = c2WitInput.slides.length :=
  c2_separator_count c2WitInput (by decide) (by decide)

/-- C2 counterexample: a single-slide deck whose `content` embeds the
delimiter pattern; the built document contains 2 occurrences, not 1. -/
theorem c2_cex :
    c2CexInput.slides.length = 1
      ∧ countOccs layoutPat (buildMarkdown c2CexInput).data = 2 := by
  refine ⟨rfl, ?_⟩
  decide

/-- C5: building with an empty slide array returns a structured failure
(`success: false` with the fixed message), leaves the file map untouched
(no write happens at the target path), and only the process-wide
presentation name is updated. -/
theorem buildHandler_empty (env : BuildEnv) (st : ServerState) (inp : BuildInput)
    (h : inp.slides = []) :
    buildHandler env st inp
        = .ok ({ st with presentationName := inp.name },
            { message := "No slides provided. 'slides' array must contain at least one slide.",
              slideCount := 0, filePath := "", success := false }) := by
  simp [buildHandler, h]

theorem c5_empty_slides (env : BuildEnv) (st : ServerState) (inp : BuildInput)
    (h : inp.slides = []) :
    buildHandler env st inp
        = .ok ({ st with presentationName := inp.name },
            { message := "No slides provided. 'slides' array must contain at least one slide.",
              slideCount := 0, filePath := "", success := false })
      ∧ ({ st with presentationName := inp.name } : ServerState).fs = st.fs :=
  ⟨buildHandler_empty env st inp h, rfl⟩

/-- C5 witness: the empty-slides rejection at a concrete state. -/
theorem c5_empty_slides_witness :
    buildHandler benv0 emptyState c5WitInput
        = .ok ({ emptyState with presentationName := c5WitInput.name },
            { message := "No slides provided. 'slides' array must contain at least one slide.",
              slideCount := 0, filePath := "", success := false })
      ∧ ({ emptyState with presentationName := c5WitInput.name } : ServerState).fs
          = emptyState.fs :=
  c5_empty_slides benv0 emptyState c5WitInput rfl

/-- C10: even a rejected (empty-slides) build sets the process-wide
presentation name before validation, writes nothing, and a subsequent
`export_to_pdf` with neither `inputPath` nor `name` resolves its input
against that name. -/
theorem c10_rejected_build_sets_name (env : BuildEnv) (st : ServerState)
    (inp : BuildInput) (h : inp.slides = []) (hn : inp.name ≠ "") :
    ∃ st' r, buildHandler env st inp = .ok (st', r)
      ∧ r.success = false
      ∧ st'.presentationName = inp.name
      ∧ st'.fs = st.fs
      ∧ resolveMdPath env st' exportInputDefault
          = (if fsExistsB st.fs (joinPath (presentationsDir env) (inp.name ++ ".md"))
             then .ok (joinPath (presentationsDir env) (inp.name ++ ".md"))
             else .error ("Presentation file not found: "
                ++ joinPath (presentationsDir env) (inp.name ++ ".md"))) := by
  refine ⟨{ st with presentationName := inp.name }, _,
    buildHandler_empty env st inp h, rfl, rfl, rfl, ?_⟩
  have ht : strTruthy inp.name = true := (strTruthy_iff inp.name).mpr hn
  simp [resolveMdPath, resolveByName, exportInputDefault, ht]

/-- C10 witness: a rejected build named "ghost" leaves "ghost" as the
default export target. -/
theorem c10_rejected_build_sets_name_witness :
    ∃ st' r, buildHandler benv0 emptyState c10WitInput = .ok (st', r)
      ∧ r.success = false
      ∧ st'.presentationName = c10WitInput.name
      ∧ st'.fs = emptyState.fs
      ∧ resolveMdPath benv0 st' exportInputDefault
          = (if fsExistsB emptyState.fs
                (joinPath (presentationsDir benv0) (c10WitInput.name ++ ".md"))
             then .ok (joinPath (presentationsDir benv0) (c10WitInput.name ++ ".md"))
             else .error ("Presentation file not found: "
                ++ joinPath (presentationsDir benv0) (c10WitInput.name ++ ".md"))) :=
  c10_rejected_build_sets_name benv0 emptyState c10WitInput rfl (by decide)

/-- C4 (amended): `export_to_pdf` always returns a structured payload — the
try body is total, every failure is routed through the catch classification,
and every payload carries a non-empty message, with `success = false` on the
catch path; `build_complete_presentation` returns a structured payload on
the empty-slides path and on successful writes, but a filesystem error in
build propagates as an uncaught exception (no try/catch). -/
theorem c4_error_capture :
    (∀ (benv : BuildEnv) (eenv : ExportEnv) (st : ServerState) (inp : ExportInput),
        (exportHandler benv eenv st inp).1.message ≠ "")
      ∧ (∀ m, (classifyMessage m).success = false)
      ∧ (∀ (env : BuildEnv) (st : ServerState) (inp : BuildInput),
          inp.slides = [] → ∃ r, buildHandler env st inp = .ok r)
      ∧ (∀ (env : BuildEnv) (st : ServerState) (inp : BuildInput),
          env.writeError = none → ∃ r, buildHandler env st inp = .ok r) := by
  refine ⟨?_, ?_, ?_, ?_⟩
  · intro benv eenv st inp
    have hclassify : ∀ m, (classifyMessage m).message ≠ "" := by
      intro m
      unfold classifyMessage
      by_cases h1 : strContains (lowerStr m) "playwright" = true
      · rw [if_pos h1]; decide
      · rw [if_neg h1]
        by_cases h2 : (strContains m "ENOENT" || strContains m "command not found") = true
        · rw [if_pos h2]; decide
        · rw [if_neg h2]
          exact strAppend_ne_empty_left "PDF export failed: " m (by decide)
    unfold exportHandler
    rcases htb : exportTryBody benv eenv st inp with ⟨res, t⟩
    cases res with
    | error e => exact hclassify e
    | ok p =>
      show p.message ≠ ""
      unfold exportTryBody at htb
      rcases hres : resolveMdPath benv st inp with e | mdPath <;> rw [hres] at htb
      · simp at htb
      · simp only [] at htb
        by_cases hw : (eenv.wrapper mdPath (resolveOutputPath mdPath inp)
            (exportOptions inp)).success = false
        · rw [if_pos hw] at htb
          simp at htb
        · rw [if_neg hw] at htb
          rcases hget : fsGet st.fs mdPath with _ | markdown <;> rw [hget] at htb
          · simp at htb
          · simp only [Prod.mk.injEq] at htb
            have hp := htb.1
            injection hp with hp2
            rw [← hp2]
            exact strAppend_ne_empty_left "PDF exported successfully! File saved at: "
              _ (by decide)
  · intro m
    unfold classifyMessage
    by_cases h1 : strContains (lowerStr m) "playwright" = true
    · rw [if_pos h1]
    · rw [if_neg h1]
      by_cases h2 : (strContains m "ENOENT" || strContains m "command not found") = true
      · rw [if_pos h2]
      · rw [if_neg h2]
  · intro env st inp h
    exact ⟨_, buildHandler_empty env st inp h⟩
  · intro env st inp h
    unfold buildHandler
    by_cases hemp : inp.slides.isEmpty
    · rw [if_pos hemp]
      exact ⟨_, rfl⟩
    · rw [if_neg hemp, h]
      exact ⟨_, rfl⟩

/-- C4 witness: the conjuncts applied at concrete inputs. -/
theorem c4_error_capture_witness :
    (exportHandler benv0 eenv0 emptyState exportInputDefault).1.message ≠ ""
      ∧ (classifyMessage "boom").success = false
      ∧ (∃ r, buildHandler benv0 emptyState c5WitInput = .ok r)
      ∧ (∃ r, buildHandler benv0 emptyState c4CexInput = .ok r) :=
  ⟨c4_error_capture.1 benv0 eenv0 emptyState exportInputDefault,
   c4_error_capture.2.1 "boom",
   c4_error_capture.2.2.1 benv0 emptyState c5WitInput rfl,
   c4_error_capture.2.2.2 benv0 emptyState c4CexInput rfl⟩

/-- C4 counterexample: with a non-empty deck and a filesystem write error,
the build handler raises an uncaught exception (modelled as `.error`), so
the caller does NOT receive a structured `{success: false}` payload. -/
theorem c4_cex :
    buildHandler benvFail emptyState c4CexInput
        = .error "EACCES: permission denied, open '/slides/deck.md'"
      ∧ c4CexInput.slides.length = 1 := by
  constructor
  · rfl
  · rfl

theorem classifyMessage_success_false (m : String) :
    (classifyMessage m).success = false := by
  unfold classifyMessage
  by_cases h1 : strContains (lowerStr m) "playwright" = true
  · rw [if_pos h1]
  · rw [if_neg h1]
    by_cases h2 : (strContains m "ENOENT" || strContains m "command not found") = true
    · rw [if_pos h2]
    · rw [if_neg h2]

theorem classifyMessage_generic (m : String)
    (h1 : strContains (lowerStr m) "playwright" = false)
    (h2 : strContains m "ENOENT" = false)
    (h3 : strContains m "command not found" = false) :
    classifyMessage m
      = { message := "PDF export failed: " ++ m, pdfPath := "", slideCount := 0,
          success := false } := by
  unfold classifyMessage
  rw [if_neg (by rw [h1]; decide), if_neg (by rw [h2, h3]; decide)]

theorem strContains_false_iff (s pat : String) :
    strContains s pat = false ↔ countOccs pat.data s.data = 0 := by
  unfold strContains
  rw [bne_eq_false_iff_eq]

theorem strContains_true_of_pos (s pat : String)
    (h : 0 < countOccs pat.data s.data) : strContains s pat = true := by
  unfold strContains
  rw [bne_iff_ne]
  omega

theorem lowerStr_append (a b : String) :
    lowerStr (a ++ b) = lowerStr a ++ lowerStr b := by
  unfold lowerStr
  exact congrArg String.mk (List.map_append Char.toLower a.data b.data)

/-- C6 (amended): an export whose input resolves nowhere fails before any
external process is invoked — the handler classifies the thrown
`Input markdown not found` / `Presentation file not found` error with an
empty effect trace, and the wrapper's Locating phase returns its structured
failure with an empty effect trace; the failure message indicates the input
could not be found EXCEPT when the substring-based error classifier
misfires because the path text itself mentions `playwright`, `ENOENT` or
`command not found` (see the counterexample). -/
theorem c6_input_not_found :
    (∀ (benv : BuildEnv) (eenv : ExportEnv) (st : ServerState) (inp : ExportInput)
        (p : String), inp.inputPath = some p → hasNonWS p = true →
        fsExistsB st.fs p = false →
        exportHandler benv eenv st inp
          = (classifyMessage ("Input markdown not found: " ++ p), []))
      ∧ (∀ (benv : BuildEnv) (eenv : ExportEnv) (st : ServerState) (inp : ExportInput)
          (n : String), inp.inputPath = none → inp.name = some n →
          strTruthy n = true →
          fsExistsB st.fs (joinPath (presentationsDir benv) (n ++ ".md")) = false →
          exportHandler benv eenv st inp
            = (classifyMessage ("Presentation file not found: "
                ++ joinPath (presentationsDir benv) (n ++ ".md")), []))
      ∧ (∀ p : String,
          strContains (lowerStr p) "playwright" = false →
          strContains p "ENOENT" = false →
          strContains p "command not found" = false →
          (classifyMessage ("Input markdown not found: " ++ p)).success = false
            ∧ strContains (classifyMessage ("Input markdown not found: " ++ p)).message
                "not found" = true)
      ∧ (∀ (env : WEnv) (inputFile outputFile : String) (opts : ExpOpts),
          (∀ q ∈ possiblePaths env inputFile, env.fsExists q = false) →
          exportWrapper env inputFile outputFile opts
            = ({ success := false, pdfPath := "",
                 message := "PDF export failed: "
                   ++ ("Input file not found: " ++ inputFile) }, [])) := by
  refine ⟨?_, ?_, ?_, ?_⟩
  · intro benv eenv st inp p hip hnw hex
    have hres : resolveMdPath benv st inp = .error ("Input markdown not found: " ++ p) := by
      simp [resolveMdPath, hip, hnw, hex]
    unfold exportHandler exportTryBody
    rw [hres]
  · intro benv eenv st inp n hip hnm htr hex
    have hres : resolveMdPath benv st inp
        = .error ("Presentation file not found: "
            ++ joinPath (presentationsDir benv) (n ++ ".md")) := by
      simp [resolveMdPath, resolveByName, hip, hnm, htr, hex]
    unfold exportHandler exportTryBody
    rw [hres]
  · intro p h1 h2 h3
    have g1 : strContains (lowerStr ("Input markdown not found: " ++ p)) "playwright"
        = false := by
      rw [lowerStr_append, strContains_false_iff, strData_append,
        countOccs_append_noSuffix _ _ _ (by decide),
        (by decide : countOccs "playwright".data (lowerStr "Input markdown not found: ").data = 0),
        Nat.zero_add]
      exact (strContains_false_iff _ _).mp h1
    have g2 : strContains ("Input markdown not found: " ++ p) "ENOENT" = false := by
      rw [strContains_false_iff, strData_append,
        countOccs_append_noSuffix _ _ _ (by decide),
        (by decide : countOccs "ENOENT".data "Input markdown not found: ".data = 0),
        Nat.zero_add]
      exact (strContains_false_iff _ _).mp h2
    have g3 : strContains ("Input markdown not found: " ++ p) "command not found" = false := by
      rw [strContains_false_iff, strData_append,
        countOccs_append_noSuffix _ _ _ (by decide),
        (by decide : countOccs "command not found".data "Input markdown not found: ".data = 0),
        Nat.zero_add]
      exact (strContains_false_iff _ _).mp h3
    rw [classifyMessage_generic _ g1 g2 g3]
    refine ⟨rfl, ?_⟩
    refine strContains_true_of_pos _ _ ?_
    rw [strData_append, strData_append, ← List.append_assoc]
    exact countOccs_pos_append_left _ _ _ (by decide)
  · intro env inputFile outputFile opts hall
    have hfind : (possiblePaths env inputFile).find? env.fsExists = none := by
      rw [List.find?_eq_none]
      intro q hq
      simp [hall q hq]
    unfold exportWrapper
    rw [hfind]

/-- C6 witness: the amended behaviors at concrete inputs — an honest
not-found path through the handler, the message-content guarantee, and the
wrapper's empty trace. -/
theorem c6_input_not_found_witness :
    exportHandler benv0 eenv0 emptyState c6WitInput
        = (classifyMessage ("Input markdown not found: " ++ "/abs/deck.md"), [])
      ∧ ((classifyMessage ("Input markdown not found: " ++ "/abs/deck.md")).success = false
          ∧ strContains (classifyMessage
              ("Input markdown not found: " ++ "/abs/deck.md")).message "not found" = true)
      ∧ exportWrapper wenv0 "nope.md" "out.pdf" optsDefault
          = ({ success := false, pdfPath := "",
               message := "PDF export failed: " ++ ("Input file not found: " ++ "nope.md") },
             []) :=
  ⟨c6_input_not_found.1 benv0 eenv0 emptyState c6WitInput "/abs/deck.md" rfl
      (by decide) (by decide),
   c6_input_not_found.2.2.1 "/abs/deck.md" (by decide) (by decide) (by decide),
   c6_input_not_found.2.2.2 wenv0 "nope.md" "out.pdf" optsDefault (fun q _ => rfl)⟩

/-- C6 counterexample: a nonexistent input path that happens to contain the
word "playwright" — the export still fails before any external process,
but the catch-classifier rewrites the message into the canned Playwright
remediation, which does NOT indicate the input could not be found. -/
theorem c6_cex :
    exportHandler benv0 eenv0 emptyState c6CexInput
        = ({ message := "PDF export failed: Playwright dependency issue. Run: npm install -D playwright-chromium",
             pdfPath := "", slideCount := 0, success := false }, [])
      ∧ strContains "PDF export failed: Playwright dependency issue. Run: npm install -D playwright-chromium"
          "not found" = false := by
  refine ⟨?_, ?_⟩ <;> decide

/-- C7: in the Verifying step the first existing candidate is the artifact;
if it is not at the requested path a copy is attempted, and a copy failure
is non-fatal (the result still succeeds with the found location); if no
candidate exists the step fails with the artifact-missing error; and after
a successful export invocation the wrapper's result is exactly the
Verifying step's verdict. -/
theorem c7_verify_artifact :
    (∀ (env : WEnv) (outputPath : String) (cands : List String),
        cands.find? env.fsExists = none →
        verifyOutput env outputPath cands
          = (.error "PDF file was not created in any expected location", []))
      ∧ (∀ (env : WEnv) (outputPath : String) (cands : List String) (found : String),
          cands.find? env.fsExists = some found → found = outputPath →
          verifyOutput env outputPath cands = (.ok found, []))
      ∧ (∀ (env : WEnv) (outputPath : String) (cands : List String) (found : String),
          cands.find? env.fsExists = some found → found ≠ outputPath →
          env.copyOk found outputPath = true →
          verifyOutput env outputPath cands
            = (.ok outputPath, [WEffect.copyOut found outputPath]))
      ∧ (∀ (env : WEnv) (outputPath : String) (cands : List String) (found : String),
          cands.find? env.fsExists = some found → found ≠ outputPath →
          env.copyOk found outputPath = false →
          verifyOutput env outputPath cands
            = (.ok found, [WEffect.copyOut found outputPath]))
      ∧ (∀ (env : WEnv) (mdPath outputFile : String) (opts : ExpOpts)
          (actual : String) (vFx : List WEffect),
          env.stageCopyOk = true → env.execOk 0 = true →
          verifyOutput env (resolvePath (canonicalRootW env) outputFile)
              (possibleOutputPaths (canonicalRootW env)
                (resolvePath (canonicalRootW env) outputFile) outputFile
                (basenameStr (resolvePath (canonicalRootW env) outputFile))
                (joinPath (canonicalRootW env) (joinPath "slides" (stagedMdName mdPath)))
                mdPath)
            = (.ok actual, vFx) →
          (wrapperMain env mdPath outputFile opts).1
            = { success := true, pdfPath := actual,
                message := "PDF exported successfully: " ++ actual })
      ∧ (∀ (env : WEnv) (mdPath outputFile : String) (opts : ExpOpts)
          (e : String) (vFx : List WEffect),
          env.stageCopyOk = true → env.execOk 0 = true →
          verifyOutput env (resolvePath (canonicalRootW env) outputFile)
              (possibleOutputPaths (canonicalRootW env)
                (resolvePath (canonicalRootW env) outputFile) outputFile
                (basenameStr (resolvePath (canonicalRootW env) outputFile))
                (joinPath (canonicalRootW env) (joinPath "slides" (stagedMdName mdPath)))
                mdPath)
            = (.error e, vFx) →
          (wrapperMain env mdPath outputFile opts).1
            = { success := false, pdfPath := "",
                message := "PDF export failed: " ++ e }) := by
  refine ⟨?_, ?_, ?_, ?_, ?_, ?_⟩
  · intro env outputPath cands hfind
    unfold verifyOutput
    rw [hfind]
  · intro env outputPath cands found hfind hEq
    unfold verifyOutput
    rw [hfind]
    simp [hEq]
  · intro env outputPath cands found hfind hne hcp
    unfold verifyOutput
    rw [hfind]
    simp [hne, hcp]
  · intro env outputPath cands found hfind hne hcp
    unfold verifyOutput
    rw [hfind]
    simp [hne, hcp]
  · intro env mdPath outputFile opts actual vFx hst hexec hv
    simp only [wrapperMain, hst, hexec, exportAttempts]
    rw [if_neg (show ¬(true = false) by decide), if_pos trivial, hv]
  · intro env mdPath outputFile opts e vFx hst hexec hv
    simp only [wrapperMain, hst, hexec, exportAttempts]
    rw [if_neg (show ¬(true = false) by decide), if_pos trivial, hv]

/-- C7 witness: the Verifying verdicts at concrete environments — a found
artifact away from the requested path with a failing copy, and a missing
artifact propagating as a wrapper failure. -/
theorem c7_verify_artifact_witness :
    verifyOutput wenvFound "/out.pdf" ["/found.pdf"]
        = (.ok "/found.pdf", [WEffect.copyOut "/found.pdf" "/out.pdf"])
      ∧ verifyOutput wenv0 "/out.pdf" ["/found.pdf"]
          = (.error "PDF file was not created in any expected location", [])
      ∧ (wrapperMain wenvRun "/in/deck.md" "out.pdf" optsDefault).1
          = { success := false, pdfPath := "",
              message := "PDF export failed: "
                ++ "PDF file was not created in any expected location" } :=
  ⟨c7_verify_artifact.2.2.2.1 wenvFound "/out.pdf" ["/found.pdf"] "/found.pdf"
      (by decide) (by decide) (by decide),
   c7_verify_artifact.1 wenv0 "/out.pdf" ["/found.pdf"] (by decide),
   c7_verify_artifact.2.2.2.2.2 wenvRun "/in/deck.md" "out.pdf" optsDefault
      "PDF file was not created in any expected location" [] rfl rfl rfl⟩

/-- C8: the installable theme package name derivation — slashed or
`@`-scoped names verbatim, `theme-`-prefixed names scoped under `@slidev/`,
any other bare name scoped as `@slidev/theme-<name>`; and for a frontmatter
theme other than `none` the ensure step checks/installs exactly the derived
package. -/
theorem c8_theme_pkg_name :
    (∀ t : String, (strContainsChar t '/' || strStartsWithStr t "@") = true →
        derivePkgName t = t)
      ∧ (∀ t : String, strContainsChar t '/' = false → strStartsWithStr t "@" = false →
          strStartsWithStr t "theme-" = true → derivePkgName t = "@slidev/" ++ t)
      ∧ (∀ t : String, strContainsChar t '/' = false → strStartsWithStr t "@" = false →
          strStartsWithStr t "theme-" = false → derivePkgName t = "@slidev/theme-" ++ t)
      ∧ (∀ (env : WEnv) (mdPath mdText t : String),
          env.readFile mdPath = some mdText →
          env.frontmatterTheme mdText = some t →
          (lowerStr t == "none") = false →
          env.themeResolvable (derivePkgName t) = false →
          themeEffects env mdPath
            = [WEffect.checkResolve (derivePkgName t),
               WEffect.installPkg (derivePkgName t)]) := by
  refine ⟨?_, ?_, ?_, ?_⟩
  · intro t h
    unfold derivePkgName
    rw [if_pos h]
  · intro t h1 h2 h3
    unfold derivePkgName
    rw [if_neg (by rw [h1, h2]; decide), if_pos h3]
  · intro t h1 h2 h3
    unfold derivePkgName
    rw [if_neg (by rw [h1, h2]; decide), if_neg (by rw [h3]; decide)]
  · intro env mdPath mdText t hr hf hn hres
    simp [themeEffects, hr, hf, hn, hres]

/-- C8 witness: the three derivation rules at concrete names, and the
ensure step for an uninstalled `seriph` frontmatter theme. -/
theorem c8_theme_pkg_name_witness :
    derivePkgName "@myorg/my-theme" = "@myorg/my-theme"
      ∧ derivePkgName "theme-minimal" = "@slidev/" ++ "theme-minimal"
      ∧ derivePkgName "seriph" = "@slidev/theme-" ++ "seriph"
      ∧ themeEffects wenvTheme "/any/deck.md"
          = [WEffect.checkResolve (derivePkgName "seriph"),
             WEffect.installPkg (derivePkgName "seriph")] :=
  ⟨c8_theme_pkg_name.1 "@myorg/my-theme" (by decide),
   c8_theme_pkg_name.2.1 "theme-minimal" (by decide) (by decide) (by decide),
   c8_theme_pkg_name.2.2.1 "seriph" (by decide) (by decide) (by decide),
   c8_theme_pkg_name.2.2.2 wenvTheme "/any/deck.md" "---\ntheme: seriph\n---\n"
      "seriph" rfl rfl (by decide) rfl⟩

/-- C9 (amended): the staged filename is a deterministic function of the
resolved input path alone — two wrapper environments that agree on the
path-relevant fields (cwd, wrapper root, file existence) produce the same
staged name even when the files' CONTENTS differ; and two differently-
located inputs with the same base name receive distinct staged names
whenever their truncated 8-hex-digit path hashes differ (the 32-bit
truncated SHA-1 admits collisions, see the counterexample). -/
theorem c9_staged_name (e1 e2 : WEnv) (inputFile : String)
    (hc : e1.cwd = e2.cwd) (hw : e1.wrapperRoot = e2.wrapperRoot)
    (hf : ∀ p, e1.fsExists p = e2.fsExists p)
    (p1 p2 : String) (hb : basenameStr p1 = basenameStr p2)
    (hh : (sha1Hex (utf8Bytes p1)).take 8 ≠ (sha1Hex (utf8Bytes p2)).take 8) :
    stagedNameOf e1 inputFile = stagedNameOf e2 inputFile
      ∧ stagedMdName p1 ≠ stagedMdName p2 := by
  constructor
  · have hpp : possiblePaths e1 inputFile = possiblePaths e2 inputFile := by
      unfold possiblePaths
      rw [hc, hw]
    have hfun : e1.fsExists = e2.fsExists := funext hf
    unfold stagedNameOf
    rw [hpp, hfun]
  · intro hEq
    apply hh
    have h2 := congrArg String.data hEq
    simp only [stagedMdName, strData_append, List.append_assoc] at h2
    rw [hb] at h2
    have h3 := List.append_cancel_left h2
    have h4 := List.append_cancel_left h3
    exact List.append_cancel_right h4

set_option maxRecDepth 100000 in
/-- C9 witness: two environments serving different contents for the same
resolved path stage it under the same name, and two same-base-name paths
with distinct truncated hashes stage under distinct names. -/
theorem c9_staged_name_witness :
    stagedNameOf wenvA "deck.md" = stagedNameOf wenvB "deck.md"
      ∧ stagedMdName "/a/deck.md" ≠ stagedMdName "/b/deck.md" :=
  c9_staged_name wenvA wenvB "deck.md" rfl rfl (fun _ => rfl)
    "/a/deck.md" "/b/deck.md" (by decide) (by decide)

set_option maxRecDepth 100000 in
/-- C9 counterexample: a 32-bit collision of the truncated path hash — two
distinct, differently-located inputs with the same base name receive the
SAME staged filename, refuting the unconditional distinctness claim. -/
theorem c9_cex :
    ("/tmp/decks/d4304/deck.md" : String) ≠ "/tmp/decks/d20513/deck.md"
      ∧ basenameStr "/tmp/decks/d4304/deck.md" = basenameStr "/tmp/decks/d20513/deck.md"
      ∧ dirnameStr "/tmp/decks/d4304/deck.md" ≠ dirnameStr "/tmp/decks/d20513/deck.md"
      ∧ stagedMdName "/tmp/decks/d4304/deck.md" = stagedMdName "/tmp/decks/d20513/deck.md" := by
  refine ⟨by decide, by decide, by decide, ?_⟩
  decide
